import Mathlib

/-!
Verification of the session/channel lifecycle and tool-invocation layer of
the `remote-mcp-host-ec2` server.

The repository contains three variants of the same Express + SSE MCP server:

* `src/unnamed/part_000` (two near-identical copies differing only in console
  logging): per-session API keys.  The `GET /sse` handler stores the new
  transport in the `transports` map and the `x-serper-api-key` header value
  (or `""`) in the `sessionApiKeys` map, both keyed by the
  `sessionId` of the transport; the `res.on("close")` callback deletes both entries.  The
  `POST /messages` handler looks the `sessionId` query parameter up in
  `transports` and answers `400 "No transport found for sessionId"` when it
  is absent.  The `search_web` tool handler reads `extra.sessionId`, looks
  the key up in `sessionApiKeys`, and either errors out before calling the
  Serper collaborator or calls it with `{q, num: 3}` and the stored key.

* `src/server.ts`: a single process-wide `SERPER_API_KEY` environment
  variable; the `GET /sse` handler stores only the transport, no per-session
  credential; the outer catch of the tool handler returns
  `"Error: Could not complete the search. Details: " + error.message`.

Console logging (`console.log` / `console.error` / `console.warn`) has no
effect on any value the claims talk about and is not modelled.  The
JavaScript objects used as maps are modelled as association lists with
unique keys maintained by construction (`aInsert` removes any previous
binding first), so that the number of entries of the JavaScript object is
the length of the list.
-/

namespace MCPHost

/-- Remove the binding for key `k` from an association list.  Models
`delete obj[k]` on a JavaScript object (a no-op when the key is absent). -/
def aRemove (k : String) (l : List (String × α)) : List (String × α) :=
  l.filter (fun p => p.1 != k)

/-- Insert (or overwrite) the binding `k ↦ v`.  Models `obj[k] = v` on a
JavaScript object: afterwards exactly one binding for `k` exists. -/
def aInsert (k : String) (v : α) (l : List (String × α)) : List (String × α) :=
  (k, v) :: aRemove k l

/-- Look a key up.  Models `obj[k]`, with `none` for `undefined`. -/
def aLookup (k : String) (l : List (String × α)) : Option α :=
  (l.find? (fun p => p.1 == k)).map Prod.snd

/-- The keys currently bound (`Object.keys(obj)`). -/
def keysOf (l : List (String × α)) : List String :=
  l.map Prod.fst

/-- A channel handle: one `SSEServerTransport`.  `sessionId` is the minted
identity; `resId` distinguishes the underlying response streams, so two
transports built from different connections are different values even when
they carry the same identity. -/
structure Transport where
  sessionId : String
  resId : Nat
deriving Repr, DecidableEq

/-- The mutable process-wide state of the `part_000` variant: the
`transports` channel registry and the `sessionApiKeys` credential store. -/
structure ServerState where
  transports : List (String × Transport)
  sessionApiKeys : List (String × String)
deriving Repr, DecidableEq

/-- The empty initial state (both maps start as `{}`). -/
def initState : ServerState :=
  { transports := [], sessionApiKeys := [] }

/-- The `GET /sse` handler of `part_000` (lines 85-103): reads the
`x-serper-api-key` header (`headerKey`, `none` when absent), creates a
transport for the fresh connection `resId` with identity `sid`, registers
it in `transports`, and stores `apiKey || ""` in `sessionApiKeys`. -/
def connect (headerKey : Option String) (resId : Nat) (sid : String)
    (s : ServerState) : ServerState :=
  { transports := aInsert sid ⟨sid, resId⟩ s.transports
    sessionApiKeys := aInsert sid (headerKey.getD "") s.sessionApiKeys }

/-- The `res.on("close")` teardown callback of `part_000` (lines 96-100):
deletes the transport and the stored API key for the closed channel. -/
def disconnect (sid : String) (s : ServerState) : ServerState :=
  { transports := aRemove sid s.transports
    sessionApiKeys := aRemove sid s.sessionApiKeys }

/-- One externally triggered event on the server state.  A `post` event is a
`POST /messages` request: its handler never mutates `transports` or
`sessionApiKeys`, so it leaves the state unchanged. -/
inductive Event where
  | connect (headerKey : Option String) (resId : Nat) (sid : String)
  | disconnect (sid : String)
  | post (sid : String)
deriving Repr, DecidableEq

/-- Effect of one event on the server state. -/
def step (s : ServerState) : Event → ServerState
  | .connect hk rid sid => connect hk rid sid s
  | .disconnect sid => disconnect sid s
  | .post _ => s

/-- Run a sequence of events from a given state. -/
def runFrom (s : ServerState) (evs : List Event) : ServerState :=
  evs.foldl step s

/-- Run a sequence of events from the initial empty state. -/
def run (evs : List Event) : ServerState :=
  runFrom initState evs

/-- Result of the `POST /messages` handler (lines 105-114): either the
message is routed to the found transport, or the handler answers with an
HTTP status and a plain-text body. -/
inductive PostResult where
  | routed (t : Transport)
  | rejected (status : Nat) (body : String)
deriving Repr, DecidableEq

/-- The `POST /messages` handler: looks the claimed `sessionId` up in
`transports` and rejects with `400 "No transport found for sessionId"` when
no transport is found. -/
def handlePost (sid : String) (s : ServerState) : PostResult :=
  match aLookup sid s.transports with
  | some t => .routed t
  | none => .rejected 400 "No transport found for sessionId"

/-- One organic search result in the Serper response
(`{title, link, snippet}`). -/
structure SearchResult where
  title : String
  link : String
  snippet : String
deriving Repr, DecidableEq

/-- The `response.data` payload of a successful collaborator call: the
`organic` field is an array or absent. -/
structure SerperData where
  organic : Option (List SearchResult)
deriving Repr, DecidableEq

/-- Outcome of the `axios.post` call to the collaborator: either it resolves
with data, or it throws (network error, non-2xx status, malformed payload)
with an error message. -/
inductive CollabOutcome where
  | success (data : SerperData)
  | failure (message : String)
deriving Repr, DecidableEq

/-- One call made to the external search collaborator: the JSON body
`{q, num}` and the `X-API-KEY` header value. -/
structure CollabCall where
  q : String
  num : Nat
  apiKey : String
deriving Repr, DecidableEq

/-- One item of the `content` array of a tool result. -/
structure ContentItem where
  type : String
  text : String
deriving Repr, DecidableEq

/-- The tool result envelope returned by a tool handler. -/
structure ToolResult where
  content : List ContentItem
deriving Repr, DecidableEq

/-- A tool result with a single text content item,
`{content: [{type: "text", text: t}]}`. -/
def mkText (t : String) : ToolResult :=
  ⟨[⟨"text", t⟩]⟩

/-- Render one organic result at zero-based index `i`
(`"${index+1}. ${title}\n   ${link}\n   ${snippet}\n\n"`). -/
def renderResult (i : Nat) (r : SearchResult) : String :=
  toString (i + 1) ++ ". " ++ r.title ++ "\n   " ++ r.link ++ "\n   " ++
    r.snippet ++ "\n\n"

/-- The `forEach` loop over the organic results, carrying the running
index. -/
def renderFrom (i : Nat) : List SearchResult → String
  | [] => ""
  | r :: rs => renderResult i r ++ renderFrom (i + 1) rs

/-- All organic results rendered in collaborator order, indices from 0. -/
def renderResults (rs : List SearchResult) : String :=
  renderFrom 0 rs

/-- The success report of the `part_000` handler (lines 56-67):
`"Search results for: ${query}\n\n"`, then, when `response.data.organic` is
present (a JavaScript array is truthy even when empty), `"Web Results:\n"`
followed by the rendered results. -/
def successReport (query : String) (d : SerperData) : String :=
  "Search results for: " ++ query ++ "\n\n" ++
    match d.organic with
    | some rs => "Web Results:\n" ++ renderResults rs
    | none => ""

/-- The error text of `part_000` when `extra.sessionId` is falsy. -/
def missingSessionText : String :=
  "Error: Internal server error (missing session ID)."

/-- The error text of `part_000` when no usable API key is stored for the
session. -/
def missingKeyText : String :=
  "Error: API key not configured for this session. Please ensure X-Serper-Api-Key header was sent on connection."

/-- The catch-all error text of `part_000`. -/
def searchFailedText : String :=
  "Error: Could not complete the search."

/-- The `search_web` tool handler of `part_000` (lines 21-78).  Inputs: the
`extra.sessionId` value (`none` models `undefined`), a snapshot of the
`sessionApiKeys` store, the `query` argument, and the outcome the
collaborator would produce if called.  Output: the tool result and the list
of collaborator calls actually made.  The JavaScript falsiness checks
`!sessionId` and `!apiKey` are true for both `undefined` and `""`. -/
def searchWeb (sessionId : Option String) (keys : List (String × String))
    (query : String) (collab : CollabOutcome) : ToolResult × List CollabCall :=
  match sessionId with
  | none => (mkText missingSessionText, [])
  | some sid =>
    if sid = "" then (mkText missingSessionText, [])
    else
      match aLookup sid keys with
      | none => (mkText missingKeyText, [])
      | some key =>
        if key = "" then (mkText missingKeyText, [])
        else
          match collab with
          | .success d => (mkText (successReport query d), [⟨query, 3, key⟩])
          | .failure _ => (mkText searchFailedText, [⟨query, 3, key⟩])

/-- The error text of `server.ts` when `SERPER_API_KEY` is not set. -/
def envMissingText : String :=
  "Error: API key not found in environment variables. Please set SERPER_API_KEY."

/-- The success report of the `server.ts` handler (lines 55-70): the
`"Web Results:"` block is added only when `response.data.organic` is present
AND non-empty; otherwise the report is just the header line. -/
def serverTsSuccessReport (query : String) (d : SerperData) : String :=
  "Search results for: " ++ query ++ "\n\n" ++
    match d.organic with
    | some rs => if rs.length > 0 then "Web Results:\n" ++ renderResults rs else ""
    | none => ""

/-- The `search_web` tool handler of `src/server.ts` (lines 14-105).
Inputs: the `process.env.SERPER_API_KEY` value (`none` models unset), the
sessionId of the `extra` context (never read by the handler of this variant), the
query, and the collaborator outcome.  A collaborator failure is re-thrown by
the inner catch and converted by the outer catch into
`"Error: Could not complete the search. Details: " + error.message`. -/
def serverTsSearchWeb (envKey : Option String) (_sessionId : Option String)
    (query : String) (collab : CollabOutcome) : ToolResult × List CollabCall :=
  match envKey with
  | none => (mkText envMissingText, [])
  | some k =>
    if k = "" then (mkText envMissingText, [])
    else
      match collab with
      | .success d => (mkText (serverTsSuccessReport query d), [⟨query, 3, k⟩])
      | .failure msg =>
          (mkText ("Error: Could not complete the search. Details: " ++ msg),
            [⟨query, 3, k⟩])

/-- The state of the `server.ts` variant: only the `transports` registry —
this variant declares no credential store at all. -/
structure TsState where
  transports : List (String × Transport)
deriving Repr, DecidableEq

/-- The `GET /sse` handler of `server.ts` (lines 111-123): registers the
transport and nothing else; no per-channel credential is stored. -/
def tsConnect (resId : Nat) (sid : String) (s : TsState) : TsState :=
  { transports := aInsert sid ⟨sid, resId⟩ s.transports }

/-- Does this event register a channel under identity `sid`? -/
def reconnects (sid : String) : Event → Bool
  | .connect _ _ q => q == sid
  | _ => false

/-- Modelled from the spec (§4.2): `register(identity, handle)` fails when
the identity is already registered.  Stated only to be compared with the
actual registration behaviour of the code. -/
def registerSpec (sid : String) (t : Transport)
    (l : List (String × Transport)) : Option (List (String × Transport)) :=
  if (aLookup sid l).isSome then none else some (aInsert sid t l)

/-! ### Association-list lemmas -/

theorem aLookup_cons (k : String) (p : String × α) (t : List (String × α)) :
    aLookup k (p :: t) = if p.1 = k then some p.2 else aLookup k t := by
  by_cases h : p.1 = k
  · rw [aLookup, List.find?_cons_of_pos _ (by simpa using h)]
    simp [h]
  · rw [aLookup, List.find?_cons_of_neg _ (by simpa using h)]
    simp [h, aLookup]

theorem aRemove_cons (k : String) (p : String × α) (t : List (String × α)) :
    aRemove k (p :: t) = if p.1 = k then aRemove k t else p :: aRemove k t := by
  by_cases h : p.1 = k <;> simp [aRemove, List.filter_cons, h]

theorem keysOf_aRemove (k : String) (l : List (String × α)) :
    keysOf (aRemove k l) = (keysOf l).filter (fun x => x != k) := by
  induction l with
  | nil => rfl
  | cons p t ih =>
    rw [aRemove_cons]
    by_cases h : p.1 = k <;> simp [keysOf, List.filter_cons, h] at ih ⊢ <;>
      simpa [keysOf] using ih

theorem keysOf_aInsert (k : String) (v : α) (l : List (String × α)) :
    keysOf (aInsert k v l) = k :: (keysOf l).filter (fun x => x != k) := by
  have h := keysOf_aRemove k l
  simp [aInsert, keysOf] at h ⊢
  simpa [keysOf] using h

theorem aLookup_aRemove_self (k : String) (l : List (String × α)) :
    aLookup k (aRemove k l) = none := by
  induction l with
  | nil => rfl
  | cons p t ih =>
    rw [aRemove_cons]
    by_cases h : p.1 = k
    · simpa [h] using ih
    · rw [if_neg h, aLookup_cons, if_neg h]
      exact ih

theorem aLookup_aRemove_ne (k q : String) (l : List (String × α)) (h : k ≠ q) :
    aLookup k (aRemove q l) = aLookup k l := by
  induction l with
  | nil => rfl
  | cons p t ih =>
    rw [aRemove_cons, aLookup_cons]
    by_cases hp : p.1 = q
    · have hpk : ¬ p.1 = k := by rw [hp]; exact fun hh => h hh.symm
      rw [if_pos hp, if_neg hpk]
      exact ih
    · rw [if_neg hp, aLookup_cons]
      by_cases hpk : p.1 = k
      · rw [if_pos hpk, if_pos hpk]
      · rw [if_neg hpk, if_neg hpk]
        exact ih

theorem aLookup_aInsert_self (k : String) (v : α) (l : List (String × α)) :
    aLookup k (aInsert k v l) = some v := by
  rw [aInsert, aLookup_cons, if_pos rfl]

theorem aLookup_aInsert_ne (k q : String) (v : α) (l : List (String × α)) (h : k ≠ q) :
    aLookup k (aInsert q v l) = aLookup k l := by
  rw [aInsert, aLookup_cons, if_neg (fun hh => h hh.symm)]
  exact aLookup_aRemove_ne k q l h


/-! ### Lifecycle invariant machinery -/

theorem keysOf_step_eq (s : ServerState) (e : Event)
    (h : keysOf s.sessionApiKeys = keysOf s.transports) :
    keysOf (step s e).sessionApiKeys = keysOf (step s e).transports := by
  cases e with
  | connect hk rid sid => simp [step, connect, keysOf_aInsert, h]
  | disconnect sid => simp [step, disconnect, keysOf_aRemove, h]
  | post sid => exact h

theorem keysOf_runFrom_eq (evs : List Event) (s : ServerState)
    (h : keysOf s.sessionApiKeys = keysOf s.transports) :
    keysOf (runFrom s evs).sessionApiKeys = keysOf (runFrom s evs).transports := by
  induction evs generalizing s with
  | nil => exact h
  | cons e t ih => exact ih (step s e) (keysOf_step_eq s e h)

theorem aLookup_step_none (s : ServerState) (e : Event) (sid : String)
    (h : aLookup sid s.transports = none) (hne : reconnects sid e = false) :
    aLookup sid (step s e).transports = none := by
  cases e with
  | connect hk rid q =>
    have hq : sid ≠ q := by
      intro hh
      simp [reconnects, hh] at hne
    rw [step, connect]
    exact (aLookup_aInsert_ne sid q _ _ hq).trans h
  | disconnect q =>
    rw [step, disconnect]
    by_cases hq : sid = q
    · rw [hq]
      exact aLookup_aRemove_self q s.transports
    · exact (aLookup_aRemove_ne sid q _ hq).trans h
  | post q => exact h

theorem aLookup_runFrom_none (evs : List Event) (s : ServerState) (sid : String)
    (h : aLookup sid s.transports = none)
    (hno : evs.all (fun e => !reconnects sid e) = true) :
    aLookup sid (runFrom s evs).transports = none := by
  induction evs generalizing s with
  | nil => exact h
  | cons e t ih =>
    rw [List.all_cons, Bool.and_eq_true] at hno
    exact ih (step s e) (aLookup_step_none s e sid h (by simpa using hno.1)) hno.2


/-! ### Claim theorems C1, C2 -/

/-- C1: co-lifetime invariant.  For every sequence of connect, disconnect and
post events run from the initial state, the credential store
`sessionApiKeys` and the channel registry `transports` are keyed by exactly
the same identities in the same order (entries are co-created and
co-destroyed), and in particular hold the same number of entries at every
observation point. -/
theorem credential_channel_colifetime (evs : List Event) :
    keysOf (run evs).sessionApiKeys = keysOf (run evs).transports ∧
    (run evs).sessionApiKeys.length = (run evs).transports.length := by
  have h := keysOf_runFrom_eq evs initState rfl
  refine ⟨h, ?_⟩
  have h2 := congrArg List.length h
  simpa [keysOf] using h2

/-- C2: after the teardown of a channel runs, every later `POST /messages`
request bearing its former identity is rejected with status 400 and body
"No transport found for sessionId", whatever other events (posts for any
identity, connects and disconnects of other identities) happen in between —
identities are minted unique, so the closed identity is never the subject of
a later connect. -/
theorem post_after_close_unroutable (s : ServerState) (sid : String)
    (evs : List Event) (hno : evs.all (fun e => !reconnects sid e) = true) :
    handlePost sid (runFrom (disconnect sid s) evs) =
      PostResult.rejected 400 "No transport found for sessionId" := by
  have h0 : aLookup sid (disconnect sid s).transports = none :=
    aLookup_aRemove_self sid s.transports
  have h := aLookup_runFrom_none evs (disconnect sid s) sid h0 hno
  simp [handlePost, h]

/-- Witness for C2 at a concrete run: channel "s1" connects and closes,
while posts for "s1" and an unrelated channel "s2" come and go. -/
theorem post_after_close_unroutable_witness :
    ([Event.post "s1", Event.connect (some "k2") 1 "s2",
        Event.disconnect "s2"].all (fun e => !reconnects "s1" e) = true) ∧
    handlePost "s1"
        (runFrom (disconnect "s1" (connect (some "k1") 0 "s1" initState))
          [Event.post "s1", Event.connect (some "k2") 1 "s2",
            Event.disconnect "s2"]) =
      PostResult.rejected 400 "No transport found for sessionId" :=
  ⟨by decide, post_after_close_unroutable _ _ _ (by decide)⟩


/-! ### Claim theorems C3, C5 -/

/-- C3 counterexample: invoking `search_web` with the present identity
"never-registered", which has no entry in the credential store, does NOT
yield the "missing session ID" internal error the claim predicts; the
handler falls through the `!sessionId` check and hits the `!apiKey` check,
returning the API-key-not-configured report instead (zero collaborator
calls are indeed made). -/
theorem searchWeb_unregistered_cex :
    (searchWeb (some "never-registered") [] "q"
        (.success ⟨none⟩)).1 ≠ mkText missingSessionText ∧
    searchWeb (some "never-registered") [] "q" (.success ⟨none⟩) =
      (mkText missingKeyText, []) :=
  ⟨by decide, rfl⟩

/-- C3 amended: invoking `search_web` with a present non-empty identity that
has no credential-store entry yields the API-key-not-configured
(configuration-error) report, and no collaborator call is made. -/
theorem searchWeb_unregistered_config_error (sid : String)
    (keys : List (String × String)) (q : String) (c : CollabOutcome)
    (h1 : sid ≠ "") (h2 : aLookup sid keys = none) :
    searchWeb (some sid) keys q c = (mkText missingKeyText, []) := by
  simp [searchWeb, h1, h2]

/-- Witness for the amended C3 at identity "s1" against an empty store. -/
theorem searchWeb_unregistered_config_error_witness :
    ("s1" : String) ≠ "" ∧
    aLookup "s1" ([] : List (String × String)) = none ∧
    searchWeb (some "s1") [] "q" (.success ⟨none⟩) = (mkText missingKeyText, []) :=
  ⟨by decide, rfl,
    searchWeb_unregistered_config_error "s1" [] "q" (.success ⟨none⟩) (by decide) rfl⟩

/-- C5: invoking `search_web` with a valid non-empty identity whose stored
credential is empty, or absent from the store, yields the
configuration-error report, whose text names the required
`X-Serper-Api-Key` header (the message decomposes around that header name),
and the collaborator is never called. -/
theorem searchWeb_empty_credential (sid : String)
    (keys : List (String × String)) (q : String) (c : CollabOutcome)
    (h1 : sid ≠ "")
    (h2 : aLookup sid keys = some "" ∨ aLookup sid keys = none) :
    searchWeb (some sid) keys q c = (mkText missingKeyText, []) ∧
    missingKeyText =
      "Error: API key not configured for this session. Please ensure " ++
        "X-Serper-Api-Key" ++ " header was sent on connection." := by
  refine ⟨?_, by decide⟩
  rcases h2 with h2 | h2 <;> simp [searchWeb, h1, h2]

/-- Witness for C5: identity "s1" registered with the empty credential. -/
theorem searchWeb_empty_credential_witness :
    ("s1" : String) ≠ "" ∧
    aLookup "s1" (aInsert "s1" "" []) = some "" ∧
    (searchWeb (some "s1") (aInsert "s1" "" []) "q" (.success ⟨none⟩) =
        (mkText missingKeyText, []) ∧
      missingKeyText =
        "Error: API key not configured for this session. Please ensure " ++
          "X-Serper-Api-Key" ++ " header was sent on connection.") :=
  ⟨by decide, rfl,
    searchWeb_empty_credential "s1" (aInsert "s1" "" []) "q" (.success ⟨none⟩)
      (by decide) (Or.inl rfl)⟩


/-! ### Claim theorems C4, C6 -/

/-- C4 counterexample: the claim requires that a zero-result success report
"states that no results were found rather than omitting the results
structure".  In the `server.ts` variant (cited source, lines 59-70) the
report built for `organic: []` is byte-for-byte identical to the report
built when the `organic` structure is absent altogether — the structure IS
omitted and nothing is stated; in the `part_000` variant it is just the
fixed headers with an empty enumeration.  Both are shown at query "q". -/
theorem zero_results_report_cex :
    serverTsSuccessReport "q" ⟨some []⟩ = serverTsSuccessReport "q" ⟨none⟩ ∧
    serverTsSuccessReport "q" ⟨some []⟩ = "Search results for: q\n\n" ∧
    successReport "q" ⟨some []⟩ = "Search results for: q\n\nWeb Results:\n" :=
  ⟨rfl, rfl, rfl⟩

/-- C4 amended: on collaborator success with zero organic results, neither
variant states that no results were found; the report consists of
the fixed header text only — in `part_000` the "Web Results:" header with an
empty enumeration, in `server.ts` nothing beyond the first line, identical
to the report produced when the organic structure is absent entirely. -/
theorem zero_results_report_amended (q : String) :
    successReport q ⟨some []⟩ =
      "Search results for: " ++ q ++ "\n\n" ++ "Web Results:\n" ∧
    serverTsSuccessReport q ⟨some []⟩ =
      "Search results for: " ++ q ++ "\n\n" ∧
    serverTsSuccessReport q ⟨some []⟩ = serverTsSuccessReport q ⟨none⟩ := by
  refine ⟨?_, ?_, rfl⟩
  · simp [successReport, renderResults, renderFrom, String.append_empty]
  · simp [serverTsSuccessReport, String.append_empty]

/-- C6: with a registered identity "s1", stored non-empty credential "k",
and a collaborator returning exactly one organic result
`{title: "A", link: "http://a", snippet: "s"}`, the tool answers with a
report containing exactly the one numbered entry "1. A / http://a / s", and
one collaborator call `{q: "q", num: 3, X-API-KEY: "k"}` is made.  In
general the enumeration preserves collaborator order: rendering `rs ++ [r]`
renders `rs` first and appends `r` as entry number `i + rs.length + 1`. -/
theorem searchWeb_single_result_report :
    searchWeb (some "s1") [("s1", "k")] "q"
        (.success ⟨some [⟨"A", "http://a", "s"⟩]⟩) =
      (mkText "Search results for: q\n\nWeb Results:\n1. A\n   http://a\n   s\n\n",
        [⟨"q", 3, "k"⟩]) ∧
    ∀ (i : Nat) (rs : List SearchResult) (r : SearchResult),
      renderFrom i (rs ++ [r]) =
        renderFrom i rs ++ renderResult (i + rs.length) r := by
  constructor
  · rfl
  · intro i rs r
    induction rs generalizing i with
    | nil => simp [renderFrom, String.append_empty, String.empty_append]
    | cons x t ih =>
      rw [List.cons_append, renderFrom, renderFrom, ih (i + 1),
        String.append_assoc, List.length_cons]
      have harith : i + 1 + t.length = i + (t.length + 1) := by omega
      rw [harith]


/-! ### Claim theorems C7, C8, C9, C10 -/

theorem searchWeb_yields_mkText (sid : Option String)
    (keys : List (String × String)) (q : String) (c : CollabOutcome) :
    ∃ t, (searchWeb sid keys q c).1 = mkText t := by
  unfold searchWeb
  repeat' split
  all_goals exact ⟨_, rfl⟩

theorem serverTsSearchWeb_yields_mkText (envKey esid : Option String)
    (q : String) (c : CollabOutcome) :
    ∃ t, (serverTsSearchWeb envKey esid q c).1 = mkText t := by
  unfold serverTsSearchWeb
  repeat' split
  all_goals exact ⟨_, rfl⟩

/-- C7: every invocation of the `search_web` handler of either variant — success
and all failure branches (missing identity, missing credential, collaborator
failure of any kind) — returns a tool-result envelope consisting of a single
text content item; the handler is a total function, so no exception escapes
the tool boundary. -/
theorem tool_always_text_envelope (sid : Option String)
    (keys : List (String × String)) (q : String) (c : CollabOutcome)
    (envKey esid : Option String) :
    (∃ t, (searchWeb sid keys q c).1 = mkText t) ∧
    (∃ t, (serverTsSearchWeb envKey esid q c).1 = mkText t) :=
  ⟨searchWeb_yields_mkText sid keys q c,
    serverTsSearchWeb_yields_mkText envKey esid q c⟩

/-- C8 counterexample: with identity "s1" already registered (handle with
`resId` 0), the spec-modelled register fails, but the registration in the code
(`transports[transport.sessionId] = transport`) succeeds and silently
replaces the old handle with the new one (`resId` 1). -/
theorem register_overwrites_cex :
    registerSpec "s1" ⟨"s1", 1⟩ (connect none 0 "s1" initState).transports =
      none ∧
    aLookup "s1" (connect none 0 "s1" initState).transports = some ⟨"s1", 0⟩ ∧
    aLookup "s1"
        (connect none 1 "s1" (connect none 0 "s1" initState)).transports =
      some ⟨"s1", 1⟩ := by
  decide

/-- C8 amended: registration never fails; registering under an identity —
present or not — unconditionally binds that identity to the new handle,
silently overwriting any existing binding. -/
theorem register_overwrites (s : ServerState) (hk : Option String)
    (rid : Nat) (sid : String) :
    aLookup sid (connect hk rid sid s).transports = some ⟨sid, rid⟩ := by
  simpa [connect] using aLookup_aInsert_self sid ⟨sid, rid⟩ s.transports

/-- C9 counterexample: in the `server.ts` variant (cited source, outer
catch), two distinct collaborator failures produce different caller-visible
texts — the text embeds the underlying error message, here revealing the
upstream status code. -/
theorem failure_detail_leak_cex :
    (serverTsSearchWeb (some "k") none "q"
        (.failure "Request failed with status code 500")).1 ≠
      (serverTsSearchWeb (some "k") none "q" (.failure "Network Error")).1 := by
  decide

/-- C9 amended: in the `part_000` variant the failure text is the constant
generic "Error: Could not complete the search." for every collaborator
failure (so any two failures yield identical texts); in the `server.ts`
variant the text is that message extended with
"Details: " and the underlying error message, which therefore varies with
and exposes the cause. -/
theorem failure_text_by_variant (sid : String) (keys : List (String × String))
    (key q m m' : String) (h1 : sid ≠ "") (h2 : aLookup sid keys = some key)
    (h3 : key ≠ "") (k : String) (hk : k ≠ "") (esid : Option String) :
    (searchWeb (some sid) keys q (.failure m)).1 = mkText searchFailedText ∧
    (searchWeb (some sid) keys q (.failure m)).1 =
      (searchWeb (some sid) keys q (.failure m')).1 ∧
    (serverTsSearchWeb (some k) esid q (.failure m)).1 =
      mkText ("Error: Could not complete the search. Details: " ++ m) := by
  refine ⟨?_, ?_, ?_⟩ <;> simp [searchWeb, serverTsSearchWeb, h1, h2, h3, hk]

/-- Witness for the amended C9 at identity "s1", credential "k" and two
concrete distinct failures. -/
theorem failure_text_by_variant_witness :
    ("s1" : String) ≠ "" ∧ aLookup "s1" [("s1", "k")] = some "k" ∧
    ("k" : String) ≠ "" ∧
    ((searchWeb (some "s1") [("s1", "k")] "q" (.failure "boom")).1 =
        mkText searchFailedText ∧
      (searchWeb (some "s1") [("s1", "k")] "q" (.failure "boom")).1 =
        (searchWeb (some "s1") [("s1", "k")] "q" (.failure "crash")).1 ∧
      (serverTsSearchWeb (some "k") none "q" (.failure "boom")).1 =
        mkText ("Error: Could not complete the search. Details: " ++ "boom")) :=
  ⟨by decide, rfl, by decide,
    failure_text_by_variant "s1" [("s1", "k")] "k" "q" "boom" "crash"
      (by decide) rfl (by decide) "k" (by decide) none⟩

/-- C10: the handler of the `server.ts` variant ignores the channel identity
entirely: its result (report and collaborator calls alike) is identical for
any two session identities, and every collaborator call it makes carries
exactly the process-wide `SERPER_API_KEY` environment value as the
`X-API-KEY` credential.  (Its state, `TsState`, holds only the transport
registry — the `server.ts` connect handler stores no per-channel credential
at all.) -/
theorem serverTs_uses_global_key (env : Option String)
    (sid₁ sid₂ : Option String) (q : String) (c : CollabOutcome) :
    serverTsSearchWeb env sid₁ q c = serverTsSearchWeb env sid₂ q c ∧
    (∀ call ∈ (serverTsSearchWeb env sid₁ q c).2, some call.apiKey = env) := by
  refine ⟨rfl, ?_⟩
  intro call hc
  rcases env with _ | k
  · simp [serverTsSearchWeb] at hc
  · by_cases hk : k = ""
    · simp [serverTsSearchWeb, hk] at hc
    · rcases c with d | m <;> simp [serverTsSearchWeb, hk] at hc <;> rw [hc]

/-- Witness for C10 at two concrete identities and a set key. -/
theorem serverTs_uses_global_key_witness :
    serverTsSearchWeb (some "k") (some "s1") "q" (.success ⟨none⟩) =
      serverTsSearchWeb (some "k") (some "s2") "q" (.success ⟨none⟩) ∧
    CollabCall.mk "q" 3 "k" ∈
      (serverTsSearchWeb (some "k") (some "s1") "q" (.success ⟨none⟩)).2 ∧
    some (CollabCall.mk "q" 3 "k").apiKey = some "k" :=
  ⟨(serverTs_uses_global_key (some "k") (some "s1") (some "s2") "q"
      (.success ⟨none⟩)).1,
    by decide,
    (serverTs_uses_global_key (some "k") (some "s1") (some "s2") "q"
      (.success ⟨none⟩)).2 ⟨"q", 3, "k"⟩ (by decide)⟩


end MCPHost
